import Mathlib

/-
Verification of the P3 Site Finder frontend (src/frontend/src/App.jsx)
against its specification.

Shallow embedding notes:
  * JavaScript numbers carried by leads are embedded as Int (scores, which are
    integral in the bundled data and only ever compared/subtracted) and Rat
    (latitude/longitude), which is faithful for the order and equality facts
    proved here.
  * Array.prototype.sort with a consistent comparator is a stable sort in
    ECMAScript; it is embedded as List.insertionSort over the relation
    "comparator result is not positive", which is stable and sorted.
  * The two fetch calls of handleSearch are embedded as an environment value:
    each request either yields parsed data (some) or fails, by a non-ok
    status, a thrown error, or a JSON parse error (none).  The requests the
    handler dispatches are returned alongside the new state.
-/

namespace SiteFinder

/-- Signal counts attached to a lead, from App.jsx. -/
structure Signals where
  newsHits : Nat
  powerOutages : Nat
  imageryFlags : List String
  zoningAlerts : Nat
deriving DecidableEq, Repr

/-- One lead record as used by App.jsx. -/
structure Lead where
  id : String
  name : String
  siteType : String
  score : Int
  lat : Rat
  lng : Rat
  date : String
  signals : Signals
  summary : String
deriving DecidableEq, Repr

/-- DEFAULT_CENTER from App.jsx line 5. -/
def DEFAULT_CENTER : Rat × Rat := (mkRat 390997 10000, mkRat (-945786) 10000)

/-- DEFAULT_RADIUS from App.jsx line 6. -/
def DEFAULT_RADIUS : Nat := 15

/-- First bundled placeholder lead (App.jsx lines 16-31). -/
def leadKC1 : Lead :=
  { id := "kc-1"
    name := "KCI Logistics Campus"
    siteType := "Intermodal"
    score := 92
    lat := mkRat 393156 10000
    lng := mkRat (-947139) 10000
    date := "2024-08-09"
    signals :=
      { newsHits := 12
        powerOutages := 3
        imageryFlags := ["Vacancy", "Heavy truck traffic"]
        zoningAlerts := 2 }
    summary := "Strong infrastructure access with underutilized parcels." }

/-- Second bundled placeholder lead (App.jsx lines 32-47). -/
def leadKC2 : Lead :=
  { id := "kc-2"
    name := "West Bottoms Revamp"
    siteType := "Mixed-use"
    score := 86
    lat := mkRat 391084 10000
    lng := mkRat (-946036) 10000
    date := "2024-07-22"
    signals :=
      { newsHits := 8
        powerOutages := 1
        imageryFlags := ["Large vacant lot"]
        zoningAlerts := 1 }
    summary := "Industrial corridor with renewal grants and active bids." }

/-- Third bundled placeholder lead (App.jsx lines 48-63). -/
def leadKC3 : Lead :=
  { id := "kc-3"
    name := "Independence Rail Yard"
    siteType := "Industrial"
    score := 79
    lat := mkRat 390951 10000
    lng := mkRat (-944211) 10000
    date := "2024-06-14"
    signals :=
      { newsHits := 5
        powerOutages := 0
        imageryFlags := ["Idle freight cars"]
        zoningAlerts := 0 }
    summary := "Rail-adjacent site with large footprint and low utilization." }

/-- The bundled placeholder lead set (App.jsx lines 15-64). -/
def placeholderLeads : List Lead := [leadKC1, leadKC2, leadKC3]

/-- Split a character list at every occurrence of a separator character,
mirroring String.prototype.split. -/
def splitOnChar (c : Char) : List Char → List (List Char)
  | [] => [[]]
  | x :: xs =>
    match splitOnChar c xs with
    | [] => [[]]
    | h :: t => if x = c then [] :: h :: t else (x :: h) :: t

/-- Read a nonempty all-digit character list as a natural number. -/
def digitsToNat : List Char → Option Nat
  | [] => none
  | l =>
    l.foldl
      (fun acc c =>
        match acc with
        | none => none
        | some n => if c.isDigit then some (n * 10 + (c.toNat - 48)) else none)
      (some 0)

/-- Parse an ISO "YYYY-MM-DD" date string to a sort key that is monotone in
the chronological order JavaScript Date parsing induces on such strings;
none embeds an Invalid Date (NaN timestamp). -/
def parseDate (s : String) : Option Int :=
  match (splitOnChar (Char.ofNat 45) s.data).map digitsToNat with
  | [some y, some m, some d] => some (((y * 10000 + m * 100 + d : Nat) : Int))
  | _ => none

/-- The trim of String.prototype, dropping leading and trailing whitespace. -/
def jsTrim (s : String) : String :=
  ⟨(((s.data.dropWhile Char.isWhitespace).reverse.dropWhile
      Char.isWhitespace).reverse)⟩

/-- Comparator for the sortBy = "date" branch (App.jsx line 100):
new Date(b.date) - new Date(a.date).  If either date is invalid the JS
subtraction is NaN, which Array.prototype.sort treats as 0. -/
def dateCompare (a b : Lead) : Int :=
  match parseDate b.date, parseDate a.date with
  | some x, some y => x - y
  | _, _ => 0

/-- Comparator for the sortBy = "type" branch (App.jsx line 103):
a.type.localeCompare(b.type), embedded via lexicographic string order. -/
def localeCompare (x y : String) : Int :=
  match compare x y with
  | .lt => -1
  | .eq => 0
  | .gt => 1

/-- The comparator passed to sort in filteredLeads (App.jsx lines 98-106). -/
def leadCompare (sortBy : String) (a b : Lead) : Int :=
  if sortBy = "date" then dateCompare a b
  else if sortBy = "type" then localeCompare a.siteType b.siteType
  else b.score - a.score

/-- Embedding of Array.prototype.sort with a consistent comparator: a stable
sort keeping a before b whenever the comparator does not order b first. -/
def jsSort (cmp : α → α → Int) (l : List α) : List α :=
  l.insertionSort fun a b => cmp a b ≤ 0

/-- The filter predicate of filteredLeads (App.jsx lines 95-97):
filterType === "all" ? true : lead.type === filterType. -/
def matchesFilter (filterType : String) (lead : Lead) : Bool :=
  filterType = "all" || lead.siteType = filterType

/-- The filteredLeads memo (App.jsx lines 94-107): filter by type, copy,
sort by the selected comparator. -/
def filteredLeads (leads : List Lead) (sortBy filterType : String) : List Lead :=
  jsSort (leadCompare sortBy) (leads.filter (matchesFilter filterType))

/-- The filteredLeads evaluation together with the leads array it reads:
leads.filter allocates a fresh array, the spread copies it, and sort
mutates only that copy, so the second component is the leads state after
the evaluation. -/
def filteredLeadsEval (leads : List Lead) (sortBy filterType : String) :
    List Lead × List Lead :=
  let subset := leads.filter (matchesFilter filterType)
  let copy := subset
  (jsSort (leadCompare sortBy) copy, leads)

/-- Geocode response payload: data.lat and data.lng (App.jsx lines 121-122). -/
structure GeoPoint where
  lat : Rat
  lng : Rat
deriving DecidableEq, Repr

/-- A network request dispatched by handleSearch, by endpoint and
parameters (App.jsx lines 115-117 and 123-125). -/
inductive Request where
  | geocode (address : String)
  | leadsQuery (lat lng : Rat) (radius : Nat)
deriving DecidableEq, Repr

/-- Outcome of each fetch handleSearch may perform: some parsed payload, or
none for a non-ok response, thrown error, or JSON failure. -/
structure FetchEnv where
  geocode : Option GeoPoint
  leadsQuery : Option (List Lead)

/-- The component state touched by handleSearch (App.jsx lines 77-92). -/
structure AppState where
  address : String
  radius : Nat
  leads : List Lead
  selectedLead : Option Lead
  mapCenter : Rat × Rat
deriving DecidableEq, Repr

/-- Result of a search submission: the state afterwards and the network
requests dispatched, in order. -/
structure SearchOutcome where
  state : AppState
  requests : List Request
deriving DecidableEq, Repr

/-- handleSearch (App.jsx lines 109-136).  An empty trimmed address returns
early.  Otherwise the geocode fetch runs; on success the map center is set
and the leads fetch runs; any failure lands in the catch block, which
resets the lead list and the selection to the placeholders. -/
def handleSearch (st : AppState) (env : FetchEnv) : SearchOutcome :=
  if jsTrim st.address = "" then
    { state := st, requests := [] }
  else
    match env.geocode with
    | none =>
        { state := { st with
            leads := placeholderLeads
            selectedLead := some leadKC1 }
          requests := [.geocode (jsTrim st.address)] }
    | some g =>
        let st1 := { st with mapCenter := (g.lat, g.lng) }
        match env.leadsQuery with
        | none =>
            { state := { st1 with
                leads := placeholderLeads
                selectedLead := some leadKC1 }
              requests := [.geocode (jsTrim st.address),
                           .leadsQuery g.lat g.lng st.radius] }
        | some leadData =>
            { state := { st1 with
                leads := leadData
                selectedLead := leadData.head? }
              requests := [.geocode (jsTrim st.address),
                           .leadsQuery g.lat g.lng st.radius] }

/-- Normalized land-use category of a parcel (spec section 3). -/
inductive Category where
  | Commercial
  | Industrial
  | Institutional
  | Other
deriving DecidableEq, Repr

/-- Modelled from the spec: a Parcel record (spec section 3).  The Candidate
Scoring Pipeline, including the Candidate Filter, exists only in the
specification; the repository's src holds only the placeholder frontend,
whose lead records carry no acreage or building-area fields. -/
structure Parcel where
  apn : String
  address : String
  lat : Rat
  lng : Rat
  landUseRaw : String
  category : Category
  acres : Rat
  buildingSqft : Rat
deriving DecidableEq, Repr

/-- Modelled from the spec: the threshold configuration of the Candidate
Filter (spec section 4.3). -/
structure Thresholds where
  allowedCategories : List Category
  minAcres : Rat
  minBuildingSqft : Rat
deriving DecidableEq, Repr

/-- Modelled from the spec: the documented threshold defaults
(spec section 4.3). -/
def defaultThresholds : Thresholds :=
  { allowedCategories := [.Commercial, .Industrial, .Institutional]
    minAcres := 10
    minBuildingSqft := 50000 }

/-- Modelled from the spec: the Candidate Filter contract
filter(parcels, thresholds), a pure function admitting a parcel iff its
category is allowed and both size thresholds are met, in input order
(spec section 4.3). -/
def candidateFilter (parcels : List Parcel) (t : Thresholds) : List Parcel :=
  parcels.filter fun p =>
    t.allowedCategories.contains p.category
      && decide (t.minAcres ≤ p.acres)
      && decide (t.minBuildingSqft ≤ p.buildingSqft)


/-- Tie lead used to exhibit the ranking behavior on equal scores: the older
date and the smaller identifier. -/
def tieLeadA : Lead :=
  { id := "a"
    name := "Older Site"
    siteType := "Industrial"
    score := 50
    lat := 0
    lng := 0
    date := "2024-01-01"
    signals := { newsHits := 0, powerOutages := 0, imageryFlags := [], zoningAlerts := 0 }
    summary := "" }

/-- Tie lead used to exhibit the ranking behavior on equal scores: the newer
date and the larger identifier. -/
def tieLeadB : Lead :=
  { id := "b"
    name := "Newer Site"
    siteType := "Industrial"
    score := 50
    lat := 0
    lng := 0
    date := "2024-12-31"
    signals := { newsHits := 0, powerOutages := 0, imageryFlags := [], zoningAlerts := 0 }
    summary := "" }

/-- Chronological key of a lead's signal-collection date. -/
def dateKey (l : Lead) : Int :=
  (parseDate l.date).getD 0

/-- The tie-break discipline claimed for the displayed ranking: whenever a
lead is placed before another lead of equal score, the earlier one has the
more recent date, or an equal date and the smaller identifier. -/
def rankTieBreak (out : List Lead) : Prop :=
  out.Pairwise fun a b =>
    a.score = b.score →
      dateKey b < dateKey a ∨ (dateKey a = dateKey b ∧ a.id < b.id)

/-- The Parcel of end-to-end scenario A of the spec: 12 acres, 60000 sqft,
Industrial. -/
def kciParcel : Parcel :=
  { apn := "kci-0001"
    address := "KCI Logistics Campus"
    lat := 39
    lng := -94
    landUseRaw := "industrial warehouse"
    category := .Industrial
    acres := 12
    buildingSqft := 60000 }

/-- On the score branch the sort comparator is the score difference. -/
theorem leadCompare_score (a b : Lead) :
    leadCompare "score" a b = b.score - a.score := by
  simp [leadCompare]

/-- Membership in the displayed list is membership in the filtered subset. -/
theorem mem_filteredLeads {x : Lead} {leads : List Lead} {sortBy filterType : String} :
    x ∈ filteredLeads leads sortBy filterType ↔
      x ∈ leads.filter (matchesFilter filterType) := by
  simp [filteredLeads, jsSort, List.mem_insertionSort]



/-- C1: with the default sort setting "score", the displayed lead list is
ordered by score in non-increasing order, for every lead list and type
filter. -/
theorem filteredLeads_sorted_by_score_descending
    (leads : List Lead) (filterType : String) :
    (filteredLeads leads "score" filterType).Sorted
      fun a b => b.score <= a.score := by
  have htotal : IsTotal Lead fun a b => leadCompare "score" a b <= 0 :=
    ⟨fun a b => by rw [leadCompare_score, leadCompare_score]; omega⟩
  have htrans : IsTrans Lead fun a b => leadCompare "score" a b <= 0 :=
    ⟨fun a b c h1 h2 => by
      rw [leadCompare_score] at h1 h2 ⊢; omega⟩
  have h := @List.sorted_insertionSort Lead
    (fun a b => leadCompare "score" a b <= 0) _ htotal htrans
    (leads.filter (matchesFilter filterType))
  exact h.imp fun {a b} hab => by
    rw [leadCompare_score] at hab; omega

/-- C6 amended: in the score ordering, leads with equal scores keep their
relative order from the input list; dates and identifiers play no role. -/
theorem score_ties_keep_input_order
    (leads : List Lead) (filterType : String) (a b : Lead)
    (hsub : List.Sublist [a, b] leads)
    (ha : matchesFilter filterType a) (hb : matchesFilter filterType b)
    (hscore : a.score = b.score) :
    List.Sublist [a, b] (filteredLeads leads "score" filterType) := by
  apply List.pair_sublist_insertionSort
  · show leadCompare "score" a b <= 0
    rw [leadCompare_score]; omega
  · have hfilter : [a, b].filter (matchesFilter filterType) = [a, b] := by
      simp [ha, hb]
    have h2 := hsub.filter (matchesFilter filterType)
    rwa [hfilter] at h2

/-- C6 amended witness: two concrete equal-score leads of the stored list
keep their input order in the displayed list. -/
theorem score_ties_keep_input_order_witness :
    List.Sublist [tieLeadA, tieLeadB]
      (filteredLeads [tieLeadA, tieLeadB] "score" "all") :=
  score_ties_keep_input_order [tieLeadA, tieLeadB] "all" tieLeadA tieLeadB
    (by decide) (by decide) (by decide) (by decide)

/-- C6 counterexample: two equal-score leads where the older-dated,
smaller-id lead is listed first stay in that order, violating the claimed
date-then-id tie-break. -/
theorem score_ties_ignore_date_and_id :
    tieLeadA.score = tieLeadB.score ∧
    dateKey tieLeadA < dateKey tieLeadB ∧
    filteredLeads [tieLeadA, tieLeadB] "score" "all" = [tieLeadA, tieLeadB] ∧
    ¬ rankTieBreak (filteredLeads [tieLeadA, tieLeadB] "score" "all") := by
  refine ⟨by decide, by decide, by decide, ?_⟩
  rw [rankTieBreak]
  decide



/-- C2: whenever the geocode request or the leads request fails on a
nonempty search, handleSearch still completes, setting the lead list to the
bundled placeholder set and selecting its first lead. -/
theorem handleSearch_failure_falls_back_to_placeholders
    (st : AppState) (env : FetchEnv)
    (haddr : jsTrim st.address ≠ "")
    (hfail : env.geocode = none ∨ env.leadsQuery = none) :
    (handleSearch st env).state.leads = placeholderLeads ∧
    (handleSearch st env).state.selectedLead = placeholderLeads.head? := by
  rcases env with ⟨geo, lq⟩
  rcases geo with _ | g
  · simp [handleSearch, haddr, placeholderLeads]
  · rcases lq with _ | ld
    · simp [handleSearch, haddr, placeholderLeads]
    · simp at hfail

/-- C2 witness: a concrete nonempty search whose geocode request fails. -/
theorem handleSearch_failure_falls_back_to_placeholders_witness :
    (handleSearch
        { address := "Kansas City", radius := 15, leads := [],
          selectedLead := none, mapCenter := DEFAULT_CENTER }
        { geocode := none, leadsQuery := none }).state.leads
      = placeholderLeads ∧
    (handleSearch
        { address := "Kansas City", radius := 15, leads := [],
          selectedLead := none, mapCenter := DEFAULT_CENTER }
        { geocode := none, leadsQuery := none }).state.selectedLead
      = placeholderLeads.head? :=
  handleSearch_failure_falls_back_to_placeholders _ _ (by decide) (Or.inl rfl)

/-- C3: a parcel of the input is admitted by the spec-modelled Candidate
Filter exactly when its normalized category is allowed, its acreage meets
the minimum, and its building area meets the minimum. -/
theorem candidateFilter_admits_iff
    (parcels : List Parcel) (t : Thresholds) (p : Parcel)
    (hp : p ∈ parcels) :
    p ∈ candidateFilter parcels t ↔
      (p.category ∈ t.allowedCategories ∧
        t.minAcres ≤ p.acres ∧ t.minBuildingSqft ≤ p.buildingSqft) := by
  simp [candidateFilter, List.mem_filter, hp, and_assoc]

/-- C3 witness: the scenario-A parcel is admitted under default thresholds. -/
theorem candidateFilter_admits_iff_witness :
    kciParcel ∈ candidateFilter [kciParcel] defaultThresholds :=
  (candidateFilter_admits_iff [kciParcel] defaultThresholds kciParcel
      (by decide)).mpr (by decide)

/-- C4 counterexample: the bundled lead named KCI Logistics Campus has type
Intermodal, not Industrial, and is absent from the displayed list under the
Industrial type filter. -/
theorem kci_lead_not_industrial :
    leadKC1.name = "KCI Logistics Campus" ∧
    leadKC1 ∈ placeholderLeads ∧
    leadKC1.siteType = "Intermodal" ∧
    leadKC1.siteType ≠ "Industrial" ∧
    leadKC1 ∉ filteredLeads placeholderLeads "score" "Industrial" := by
  refine ⟨rfl, by decide, rfl, by decide, by decide⟩

/-- C4 amended: the KCI Logistics Campus lead has the Intermodal type; it is
shown under the Intermodal filter and under all types, and not under the
Industrial filter. -/
theorem kci_lead_intermodal_admission :
    leadKC1.siteType = "Intermodal" ∧
    leadKC1 ∈ filteredLeads placeholderLeads "score" "Intermodal" ∧
    leadKC1 ∈ filteredLeads placeholderLeads "score" "all" ∧
    leadKC1 ∉ filteredLeads placeholderLeads "score" "Industrial" := by
  refine ⟨rfl, by decide, by decide, by decide⟩

/-- C5: every bundled placeholder score lies in the interval from 0 to 100,
and the displayed list only ever holds leads of the stored list, so
filtering, sorting and selecting preserve that bound. -/
theorem scores_within_bounds :
    (∀ l ∈ placeholderLeads, 0 ≤ l.score ∧ l.score ≤ 100) ∧
    ∀ (leads : List Lead) (sortBy filterType : String),
      (∀ l ∈ leads, 0 ≤ l.score ∧ l.score ≤ 100) →
      ∀ l ∈ filteredLeads leads sortBy filterType,
        0 ≤ l.score ∧ l.score ≤ 100 := by
  constructor
  · decide
  · intro leads sortBy filterType hleads l hl
    exact hleads l (List.mem_filter.mp (mem_filteredLeads.mp hl)).1

/-- C5 witness: the bound instantiated on the placeholder set itself. -/
theorem scores_within_bounds_witness :
    (0 ≤ leadKC1.score ∧ leadKC1.score ≤ 100) ∧
    (0 ≤ leadKC3.score ∧ leadKC3.score ≤ 100) :=
  ⟨scores_within_bounds.1 leadKC1 (by decide),
    scores_within_bounds.2 placeholderLeads "score" "Industrial"
      (scores_within_bounds.1) leadKC3 (by decide)⟩

/-- C7 counterexample: after a successful geocode and a failed leads
request, the map center keeps the geocoded coordinates of the failed run
instead of its previous value. -/
theorem map_center_retained_after_leads_failure :
    (handleSearch
        { address := "Denver", radius := 15, leads := placeholderLeads,
          selectedLead := some leadKC1, mapCenter := DEFAULT_CENTER }
        { geocode := some { lat := 1, lng := 2 }, leadsQuery := none
          }).state.mapCenter = (1, 2) ∧
    ((1 : Rat), (2 : Rat)) ≠ DEFAULT_CENTER := by
  refine ⟨by decide, by decide⟩

/-- C7 amended: when the leads request fails after a successful geocode, the
lead list and selection are reset to the placeholders, but the map center
keeps the coordinates geocoded during the failed run. -/
theorem handleSearch_leads_failure_keeps_geocoded_center
    (st : AppState) (g : GeoPoint)
    (haddr : jsTrim st.address ≠ "") :
    (handleSearch st { geocode := some g, leadsQuery := none }).state =
      { st with
          mapCenter := (g.lat, g.lng)
          leads := placeholderLeads
          selectedLead := some leadKC1 } := by
  simp [handleSearch, haddr]

/-- C7 amended witness: the amended statement at a concrete state and
geocode result. -/
theorem handleSearch_leads_failure_keeps_geocoded_center_witness :
    (handleSearch
        { address := "Denver", radius := 15, leads := placeholderLeads,
          selectedLead := some leadKC1, mapCenter := DEFAULT_CENTER }
        { geocode := some { lat := 1, lng := 2 }, leadsQuery := none
          }).state =
      { address := "Denver", radius := 15, leads := placeholderLeads,
        selectedLead := some leadKC1, mapCenter := ((1 : Rat), (2 : Rat)) } :=
  handleSearch_leads_failure_keeps_geocoded_center _ _ (by decide)

/-- C8: the displayed lead list is a deterministic function of the stored
leads, the sort key and the type filter alone: equal inputs give equal
outputs. -/
theorem filteredLeads_deterministic
    (l₁ l₂ : List Lead) (s₁ s₂ f₁ f₂ : String)
    (hl : l₁ = l₂) (hs : s₁ = s₂) (hf : f₁ = f₂) :
    filteredLeads l₁ s₁ f₁ = filteredLeads l₂ s₂ f₂ := by
  rw [hl, hs, hf]

/-- C8 witness: determinism instantiated on the placeholder set. -/
theorem filteredLeads_deterministic_witness :
    filteredLeads placeholderLeads "score" "all"
      = filteredLeads placeholderLeads "score" "all" :=
  filteredLeads_deterministic placeholderLeads placeholderLeads
    "score" "score" "all" "all" rfl rfl rfl

/-- C9: submitting a search whose address trims to the empty string
dispatches no network request and leaves the whole state, in particular the
lead list, the selection and the map center, unchanged. -/
theorem handleSearch_blank_address_noop
    (st : AppState) (env : FetchEnv)
    (h : jsTrim st.address = "") :
    handleSearch st env = { state := st, requests := [] } := by
  simp [handleSearch, h]

/-- C9 witness: a whitespace-only address at a concrete state. -/
theorem handleSearch_blank_address_noop_witness :
    handleSearch
        { address := "   ", radius := 15, leads := placeholderLeads,
          selectedLead := some leadKC1, mapCenter := DEFAULT_CENTER }
        { geocode := some { lat := 1, lng := 2 },
          leadsQuery := some [] } =
      { state :=
          { address := "   ", radius := 15, leads := placeholderLeads,
            selectedLead := some leadKC1, mapCenter := DEFAULT_CENTER },
        requests := [] } :=
  handleSearch_blank_address_noop _ _ (by decide)

/-- C10: evaluating the displayed list never mutates the stored leads: the
leads array after the evaluation is the input itself, while the view is a
permutation of the filtered subset built from a copy. -/
theorem filteredLeadsEval_preserves_leads
    (leads : List Lead) (sortBy filterType : String) :
    (filteredLeadsEval leads sortBy filterType).2 = leads ∧
    (filteredLeadsEval leads sortBy filterType).1
      = filteredLeads leads sortBy filterType ∧
    ((filteredLeadsEval leads sortBy filterType).1).Perm
      (leads.filter (matchesFilter filterType)) :=
  ⟨rfl, rfl, List.perm_insertionSort _ _⟩

end SiteFinder
